import Mathlib

set_option maxHeartbeats 1000000

/-
  Shallow embedding of the Helm bridge core (hub session manager,
  cloud session manager, command executor, state batcher, credential
  store, pairing coordinator), translated from the TypeScript sources:
  ha-ws-client.ts, cloud-client.ts, credential-store.ts and the
  HelmBridge orchestrator.
-/

/-- Frames written on the hub WebSocket by the bridge. -/
inductive HubFrame where
  | request (id : Nat) (reqType : String)
  | auth (token : String)
deriving DecidableEq, Repr

/-- Settlement of a pending RPC waiter: the promise is fulfilled or
rejected with an error message. -/
inductive Settlement where
  | fulfilled (id : Nat)
  | failed (id : Nat) (msg : String)
deriving DecidableEq, Repr

/-- Signals emitted by the hub client (EventEmitter events plus the
connect-promise rejection). -/
inductive HubSignal where
  | authFailed (msg : String)
  | connectRejected (msg : String)
  | disconnectedSig
deriving DecidableEq, Repr

/-- State of HAWebSocketClient: messageId counter (starts at 1),
authenticated flag, event subscription id, reconnect bookkeeping and
the pendingResponses waiter table (modelled by the list of waiting
request ids, in insertion order). -/
structure HubState where
  messageId : Nat := 1
  authenticated : Bool := false
  eventSubscriptionId : Option Nat := none
  reconnectAttempts : Nat := 0
  shouldReconnect : Bool := true
  wsOpen : Bool := false
  pending : List Nat := []
deriving DecidableEq, Repr

/-- maxReconnectAttempts field of HAWebSocketClient. -/
def maxReconnectAttempts : Nat := 10

/-- reconnectDelay field of HAWebSocketClient (base backoff in ms). -/
def reconnectDelay : Nat := 1000

/-- The 30000 ms deadline armed by sendCommand. -/
def hubCommandTimeoutMs : Nat := 30000

/-- The fresh client state built by the constructor. -/
def initialHub : HubState := {}

/-- Synchronous outcome of a sendCommand call: either the promise was
rejected immediately, or a waiter was registered under a fresh id. -/
inductive SendCommandResult where
  | rejected (msg : String)
  | pendingCall (id : Nat)
deriving DecidableEq, Repr

/-- Everything sendCommand does synchronously: the promise outcome, the
updated client state, the frames written to the socket, and the timer
it arms (none when it returned early). -/
structure SendOutcome where
  result : SendCommandResult
  state : HubState
  frames : List HubFrame
  timerMs : Option Nat
deriving DecidableEq, Repr

/-- HAWebSocketClient.sendCommand: reject with "Not authenticated" when
not authenticated (before consuming an id, inserting a waiter or
writing a frame); otherwise take the next id, insert a waiter, write
the frame (send is a no-op on a closed socket) and arm the 30 s
timeout. -/
def HubState.sendCommand (s : HubState) (reqType : String) : SendOutcome :=
  if s.authenticated = false then
    { result := SendCommandResult.rejected "Not authenticated",
      state := s, frames := [], timerMs := none }
  else
    let id := s.messageId
    let s1 := { s with messageId := s.messageId + 1, pending := s.pending ++ [id] }
    { result := SendCommandResult.pendingCall id,
      state := s1,
      frames := if s.wsOpen then [HubFrame.request id reqType] else [],
      timerMs := some hubCommandTimeoutMs }

/-- HAWebSocketClient.handleResult: a result frame settles the matching
waiter (fulfill on success, fail with the server message otherwise) and
removes it from the table; a frame whose id is absent (or falsy) is
ignored. -/
def HubState.handleResult (s : HubState) (id : Nat) (success : Bool)
    (errMsg : Option String) : HubState × Option Settlement :=
  if id != 0 && s.pending.contains id then
    ({ s with pending := s.pending.erase id },
     some (if success then Settlement.fulfilled id
           else Settlement.failed id
             (match errMsg with
              | some m => if m == "" then "Unknown error" else m
              | none => "Unknown error")))
  else (s, none)

/-- The setTimeout callback armed by sendCommand: if the waiter is
still in the table, remove it and reject with "Command timeout";
otherwise do nothing. -/
def HubState.timeoutFire (s : HubState) (id : Nat) : HubState × Option Settlement :=
  if s.pending.contains id then
    ({ s with pending := s.pending.erase id },
     some (Settlement.failed id "Command timeout"))
  else (s, none)

/-- HAWebSocketClient.scheduleReconnect: give up after
maxReconnectAttempts, otherwise schedule a connect after
min(reconnectDelay * 2 ^ attempts, 30000) ms and bump the counter. -/
def HubState.scheduleReconnect (s : HubState) : HubState × Option Nat :=
  if s.reconnectAttempts ≥ maxReconnectAttempts then (s, none)
  else
    let delay := min (reconnectDelay * 2 ^ s.reconnectAttempts) 30000
    ({ s with reconnectAttempts := s.reconnectAttempts + 1 }, some delay)

/-- The ws close handler: drop authenticated and the subscription,
then schedule a reconnect when shouldReconnect is set. The waiter
table is not touched and no waiter is settled. -/
def HubState.handleClose (s : HubState) : HubState × Option Nat × List Settlement :=
  let s1 := { s with authenticated := false, eventSubscriptionId := none, wsOpen := false }
  if s1.shouldReconnect then
    let p := s1.scheduleReconnect
    (p.1, p.2, [])
  else (s1, none, [])

/-- HAWebSocketClient.disconnect: disable reconnection, cancel the
timer, close the socket, drop authenticated, and clear the waiter
table. No waiter is settled. -/
def HubState.disconnect (s : HubState) : HubState × List Settlement :=
  ({ s with shouldReconnect := false, wsOpen := false,
            authenticated := false, pending := [] }, [])

/-- The auth_invalid case of handleMessage: emit auth_failed and reject
the connect promise; the client state (in particular shouldReconnect)
is left unchanged and the socket is not closed by the client. -/
def HubState.handleAuthInvalid (s : HubState) (msg : String) : HubState × List HubSignal :=
  (s, [HubSignal.authFailed msg, HubSignal.connectRejected msg])

/-- Delays scheduled over a run of consecutive socket closes (no
successful reconnect in between), up to n closes. -/
def closeDelays : HubState → Nat → List Nat
  | _, 0 => []
  | s, n + 1 =>
    match s.handleClose with
    | (s1, some d, _) => d :: closeDelays s1 n
    | (_, none, _) => []

/-- The persisted credential record (credential-store.ts,
StoredCredentials). The pollForPairing save writes only the first
three fields. -/
structure StoredCredentials where
  bridgeId : String
  bridgeCredential : String
  tenantId : String
  pairedAt : Option String := none
  cloudUrl : Option String := none
deriving DecidableEq, Repr

/-- CredentialStore: the file on disk and the in-memory copy. -/
structure CredStore where
  fileContents : Option StoredCredentials := none
  credentials : Option StoredCredentials := none
deriving DecidableEq, Repr

/-- CredentialStore.save: write the file and keep the in-memory copy. -/
def CredStore.save (_ : CredStore) (c : StoredCredentials) : CredStore :=
  { fileContents := some c, credentials := some c }

/-- CredentialStore.clear: remove the file and null the in-memory
copy. -/
def CredStore.clear (_ : CredStore) : CredStore :=
  { fileContents := none, credentials := none }

/-- CredentialStore.isPaired: a credential is resident and its
bridgeCredential is truthy (non-empty). -/
def CredStore.isPaired (st : CredStore) : Bool :=
  match st.credentials with
  | some c => !(c.bridgeCredential == "")
  | none => false

/-- Is the first character list a prefix of the second? -/
def listPrefixOf : List Char → List Char → Bool
  | [], _ => true
  | _ :: _, [] => false
  | a :: as, b :: bs => a == b && listPrefixOf as bs

/-- Does the needle occur as a contiguous run inside the hay? -/
def listContainsSub (needle : List Char) : List Char → Bool
  | [] => listPrefixOf needle []
  | c :: rest => listPrefixOf needle (c :: rest) || listContainsSub needle rest

/-- JavaScript String.prototype.includes. -/
def containsSubstring (hay needle : String) : Bool :=
  listContainsSub needle.data hay.data

/-- JavaScript String.prototype.toLowerCase (ASCII view). -/
def lowerAscii (s : String) : String :=
  String.mk (s.data.map Char.toLower)

/-- JavaScript truthiness of an optional string. -/
def credTruthy : Option String → Bool
  | some s => !(s == "")
  | none => false

/-- The payload destructured by HelmBridge.handleCloudCommand; the
fields are optional because the destructuring never checks them. -/
structure CommandPayload where
  domain : Option String := none
  service : Option String := none
  serviceData : Option (List (String × String)) := none
deriving DecidableEq, Repr

/-- An inbound command frame from the cloud. -/
structure CommandMessage where
  cmdId : String
  commandType : String
  payload : CommandPayload
  requiresAck : Bool
deriving DecidableEq, Repr

/-- The state object shape inside a hub state_changed event. -/
structure StateObj where
  state : String
  attributes : List (String × String)
  last_changed : String
  last_updated : String
deriving DecidableEq, Repr

/-- A hub state_changed event as queued by handleStateChange; both
states are nullable in the source type. -/
structure HAEventModel where
  entity_id : String
  old_state : Option StateObj
  new_state : Option StateObj
deriving DecidableEq, Repr

/-- The outbound per-event shape built by flushStateChanges. -/
structure OutState where
  state : String
  attributes : List (String × String)
  lastChanged : String
  lastUpdated : String
deriving DecidableEq, Repr

/-- One event of an outbound state_batch frame. -/
structure OutEvent where
  entityId : String
  oldState : Option OutState
  newState : OutState
  timestamp : String
deriving DecidableEq, Repr

/-- Frames written on the cloud WebSocket by the bridge (the variants
the claims are about). -/
inductive CloudFrame where
  | commandAck (cmdId : String) (status : String) (receivedAt : String)
  | commandResult (cmdId : String) (status : String)
      (error : Option (String × String)) (completedAt : String)
  | stateBatch (batchId : Nat) (batchedAt : String)
      (events : List OutEvent) (isOverflow : Bool)
deriving DecidableEq, Repr

/-- An RPC invocation issued on the hub session by the executor. -/
inductive HubCall where
  | callService (domain service : Option String)
      (serviceData : List (String × String))
deriving DecidableEq, Repr

/-- Signals emitted by the cloud client. -/
inductive CloudSignal where
  | authenticatedSig (tenantId : Option String)
  | authFailedSig (err : String)
  | connectResolved
  | connectRejected (err : String)
deriving DecidableEq, Repr

/-- State of CloudClient relevant to the claims. -/
structure CloudState where
  store : CredStore := {}
  authenticated : Bool := false
  tenantId : Option String := none
  shouldReconnect : Bool := true
  reconnectAttempts : Nat := 0
  heartbeatRunning : Bool := false
deriving DecidableEq, Repr

/-- The error text used by handleAuthResult on failure:
message.error with a fallback for a missing or empty field. -/
def effectiveErr (error : Option String) : String :=
  match error with
  | some e => if e == "" then "Unknown error" else e
  | none => "Unknown error"

/-- The revocation test of handleAuthResult:
error.toLowerCase() includes "revoked" or includes "invalid". -/
def credErrClears (err : String) : Bool :=
  containsSubstring (lowerAscii err) "revoked" ||
  containsSubstring (lowerAscii err) "invalid"

/-- CloudClient.handleAuthResult. On success: set authenticated,
record tenantId, start the heartbeat, resolve the connect promise. On
failure: when the error text indicates revocation or invalidity,
clear the credential store and disable reconnection; in both cases
emit auth_failed and reject the connect promise. -/
def CloudState.handleAuthResult (s : CloudState) (success : Bool)
    (tenantId : Option String) (error : Option String) :
    CloudState × List CloudSignal :=
  if success then
    ({ s with authenticated := true, tenantId := tenantId, heartbeatRunning := true },
     [CloudSignal.authenticatedSig tenantId, CloudSignal.connectResolved])
  else
    let err := effectiveErr error
    let s1 := if credErrClears err then
        { s with store := s.store.clear, shouldReconnect := false }
      else s
    (s1, [CloudSignal.authFailedSig err, CloudSignal.connectRejected err])

/-- maxReconnectAttempts field of CloudClient. -/
def cloudMaxReconnectAttempts : Nat := 10

/-- CloudClient.scheduleReconnect: give up after 10 attempts; the
delay doubles from 1000 ms and is capped at 60000 ms. -/
def CloudState.scheduleReconnect (s : CloudState) : CloudState × Option Nat :=
  if s.reconnectAttempts ≥ cloudMaxReconnectAttempts then (s, none)
  else
    let delay := min (1000 * 2 ^ s.reconnectAttempts) 60000
    ({ s with reconnectAttempts := s.reconnectAttempts + 1 }, some delay)

/-- The cloud ws close handler: drop authenticated, stop the
heartbeat, then schedule a reconnect when shouldReconnect is set. -/
def CloudState.handleClose (s : CloudState) : CloudState × Option Nat :=
  let s1 := { s with authenticated := false, heartbeatRunning := false }
  if s1.shouldReconnect then s1.scheduleReconnect else (s1, none)

/-- CloudClient.handleCommand: when requiresAck is set, send a
command_ack (send drops the frame when the socket is closed); the
command is then emitted to the executor. -/
def cloudHandleCommand (cmd : CommandMessage) (wsOpen : Bool) (now : String) :
    List CloudFrame :=
  if cmd.requiresAck && wsOpen then
    [CloudFrame.commandAck cmd.cmdId "acknowledged" now]
  else []

/-- HelmBridge.handleCloudCommand: destructure the payload (no
commandType dispatch), invoke callService on the hub session, and
send a command_result: completed on success, failed with code
EXECUTION_FAILED on error. The hub RPC outcome is a parameter. -/
def executeCloudCommand (cmd : CommandMessage) (hubOutcome : Except String Unit)
    (now : String) : List HubCall × CloudFrame :=
  let call := HubCall.callService cmd.payload.domain cmd.payload.service
      (match cmd.payload.serviceData with | some d => d | none => [])
  match hubOutcome with
  | Except.ok _ => ([call], CloudFrame.commandResult cmd.cmdId "completed" none now)
  | Except.error msg =>
      ([call],
       CloudFrame.commandResult cmd.cmdId "failed" (some ("EXECUTION_FAILED", msg)) now)

/-- End-to-end processing of one inbound command frame: the ack phase
of CloudClient.handleCommand followed by the executor; openAtAck and
openAtResult are the socket states at the two send calls. -/
def processCloudCommand (cmd : CommandMessage) (hubOutcome : Except String Unit)
    (openAtAck openAtResult : Bool) (ackTime resultTime : String) :
    List HubCall × List CloudFrame :=
  let ackFrames := cloudHandleCommand cmd openAtAck ackTime
  let ex := executeCloudCommand cmd hubOutcome resultTime
  (ex.1, ackFrames ++ (if openAtResult then [ex.2] else []))

/-- Does a frame carry a command_ack for this cmdId? -/
def isAckFor (c : String) : CloudFrame → Bool
  | CloudFrame.commandAck cid _ _ => cid == c
  | _ => false

/-- Does a frame carry a command_result for this cmdId? -/
def isResultFor (c : String) : CloudFrame → Bool
  | CloudFrame.commandResult cid _ _ _ => cid == c
  | _ => false

/-- The commandType values named by the protocol data model. -/
def recognizedCommandTypes : List String :=
  ["ha_call_service", "ha_full_resync", "ha_refresh_entity"]

/-- State of the HelmBridge state batcher: the stateChangeQueue, the
batch timer flag, and a supply modelling crypto.randomUUID (the
counter is the next fresh id; sentBatchIds are the ids already
handed out). -/
structure BatcherState where
  queue : List HAEventModel := []
  timerArmed : Bool := false
  uuidCounter : Nat := 0
  sentBatchIds : List Nat := []
deriving DecidableEq, Repr

/-- HelmBridge.handleStateChange: append the event to the queue and
arm the flush timer if it is not armed. -/
def handleStateChange (s : BatcherState) (e : HAEventModel) : BatcherState :=
  { s with queue := s.queue ++ [e], timerArmed := true }

/-- The per-event mapping inside flushStateChanges. The source reads
new_state with a non-null assertion; a null new_state makes the map
callback throw, modelled by none. -/
def convertEvent (now : String) (e : HAEventModel) : Option OutEvent :=
  match e.new_state with
  | none => none
  | some ns =>
    some { entityId := e.entity_id,
           oldState := e.old_state.map (fun os =>
             { state := os.state, attributes := os.attributes,
               lastChanged := os.last_changed, lastUpdated := os.last_updated }),
           newState := { state := ns.state, attributes := ns.attributes,
                         lastChanged := ns.last_changed, lastUpdated := ns.last_updated },
           timestamp := now }

/-- Array.prototype.map with a callback that may throw: the whole map
fails if any element fails. -/
def mapEvents (now : String) : List HAEventModel → Option (List OutEvent)
  | [] => some []
  | e :: rest =>
    match convertEvent now e, mapEvents now rest with
    | some oe, some rs => some (oe :: rs)
    | _, _ => none

/-- CloudClient.sendStateBatch: a no-op on an empty list, otherwise
one state_batch frame with a fresh uuid, the events in order, and
isOverflow false. -/
def sendStateBatch (s : BatcherState) (now : String) (events : List OutEvent) :
    BatcherState × List CloudFrame :=
  if events.length == 0 then (s, [])
  else
    ({ s with uuidCounter := s.uuidCounter + 1,
              sentBatchIds := s.sentBatchIds ++ [s.uuidCounter] },
     [CloudFrame.stateBatch s.uuidCounter now events false])

/-- HelmBridge.flushStateChanges: nothing to do on an empty queue;
otherwise swap the queue out, and when the cloud is connected map the
batch to the outbound shape and send it (none models the exception a
null new_state raises inside the map). -/
def flushStateChanges (s : BatcherState) (connected : Bool) (now : String) :
    Option (BatcherState × List CloudFrame) :=
  if s.queue.isEmpty then some ({ s with timerArmed := false }, [])
  else
    let batch := s.queue
    let s1 : BatcherState := { s with queue := [], timerArmed := false }
    if connected then
      match mapEvents now batch with
      | none => none
      | some events => some (sendStateBatch s1 now events)
    else some (s1, [])

/-- Deliver a list of state-change events to the batcher in order. -/
def recvAll (s : BatcherState) (es : List HAEventModel) : BatcherState :=
  es.foldl handleStateChange s

/-- Attempt cap of the pairing polling loop. -/
def pollMaxAttempts : Nat := 120

/-- Poll interval of the pairing polling loop (ms). -/
def pollIntervalMs : Nat := 5000

/-- What one iteration of pollForPairing decides to do next. -/
inductive PollAction where
  | connectAndExit
  | continuePolling (delayMs : Nat)
  | exitRestartRequired
  | exitExpired
  | exitGiveUp
deriving DecidableEq, Repr

/-- The response observed by one poll iteration. -/
inductive PollResponse where
  | transportError
  | nonJson
  | httpOk (status : String) (bridgeCredential tenantId bridgeId : Option String)
  | http404
  | httpFail (code : Nat)
deriving DecidableEq, Repr

/-- The trailing re-arm of the poll: continue below the attempt cap,
give up at the cap. -/
def continueOrStop (attempts : Nat) : PollAction :=
  if attempts < pollMaxAttempts then PollAction.continuePolling pollIntervalMs
  else PollAction.exitGiveUp

/-- One iteration of HelmBridge.pollForPairing, after the attempt
counter has been bumped: first the local isPaired check, then the
response dispatch. On status paired with a truthy credential the
store is saved (the three identifying fields, via non-null
assertions on tenantId and bridgeId) and the loop exits into a cloud
connect. -/
def pollStep (store : CredStore) (attempts : Nat) (resp : PollResponse) :
    CredStore × PollAction :=
  if store.isPaired then (store, PollAction.connectAndExit)
  else
    match resp with
    | PollResponse.transportError => (store, continueOrStop attempts)
    | PollResponse.nonJson => (store, continueOrStop attempts)
    | PollResponse.httpOk status cred tid bid =>
      if status == "paired" && credTruthy cred then
        let c : StoredCredentials :=
          { bridgeId := bid.getD "", tenantId := tid.getD "",
            bridgeCredential := cred.getD "" }
        (store.save c, PollAction.connectAndExit)
      else if status == "paired" then
        if store.isPaired then (store, PollAction.connectAndExit)
        else (store, PollAction.exitRestartRequired)
      else if status == "expired" then (store, PollAction.exitExpired)
      else (store, continueOrStop attempts)
    | PollResponse.http404 =>
      if store.isPaired then (store, PollAction.connectAndExit)
      else (store, continueOrStop attempts)
    | PollResponse.httpFail _ => (store, continueOrStop attempts)

/-- An authenticated hub session with one RPC waiter (id 4) in the
table. -/
def hubWithWaiter4 : HubState :=
  { messageId := 5, authenticated := true, wsOpen := true, pending := [4] }

/-- An authenticated hub session with one RPC waiter (id 5) in the
table. -/
def hubWithWaiter5 : HubState :=
  { messageId := 6, authenticated := true, wsOpen := true, pending := [5] }

/-- A concrete stored credential (the first-run pairing scenario). -/
def demoCreds : StoredCredentials :=
  { bridgeId := "helm-bridge-abcd1234", bridgeCredential := "bc_deadbeef",
    tenantId := "42" }

/-- A paired cloud client about to authenticate. -/
def pairedCloud : CloudState :=
  { store := { fileContents := some demoCreds, credentials := some demoCreds } }

/-- The command of the command-dispatch scenario. -/
def demoCommand : CommandMessage :=
  { cmdId := "11111111-1111-1111-1111-111111111111",
    commandType := "ha_call_service",
    payload := { domain := some "light", service := some "turn_on",
                 serviceData := some [("entity_id", "light.kitchen")] },
    requiresAck := true }

/-- A command whose commandType is not a recognized type. -/
def unknownCommand : CommandMessage :=
  { cmdId := "cmd-unknown-1", commandType := "bogus_type",
    payload := { domain := some "light", service := some "turn_on",
                 serviceData := none },
    requiresAck := false }

/-- Default frame used for out-of-range list reads in statements. -/
def dummyFrame : CloudFrame := CloudFrame.commandAck "" "" ""

/-- A concrete hub state object for the batching scenario. -/
def demoStateObj : StateObj :=
  { state := "on", attributes := [], last_changed := "t0", last_updated := "t0" }

/-- The four events A, B, A, C of the state-batching scenario. -/
def evA : HAEventModel :=
  { entity_id := "light.a", old_state := none, new_state := some demoStateObj }

/-- Second event of the batching scenario. -/
def evB : HAEventModel :=
  { entity_id := "light.b", old_state := none, new_state := some demoStateObj }

/-- Fourth event of the batching scenario. -/
def evC : HAEventModel :=
  { entity_id := "light.c", old_state := none, new_state := some demoStateObj }

/- ------------------------------------------------------------------ -/
/- Theorems.                                                           -/
/- ------------------------------------------------------------------ -/

/-- Helper: scheduleReconnect never touches the waiter table. -/
theorem scheduleReconnect_pending (s : HubState) :
    (s.scheduleReconnect).1.pending = s.pending := by
  by_cases h : s.reconnectAttempts ≥ maxReconnectAttempts <;>
    simp [HubState.scheduleReconnect, h]

/-- Claim C10: sendCommand on an unauthenticated hub session rejects
immediately with "Not authenticated": the state is unchanged (no
request id consumed, no waiter inserted), no frame is written, no
timer armed. -/
theorem sendCommand_not_authenticated (s : HubState) (reqType : String)
    (h : s.authenticated = false) :
    s.sendCommand reqType =
      { result := SendCommandResult.rejected "Not authenticated",
        state := s, frames := [], timerMs := none } := by
  simp [HubState.sendCommand, h]

/-- Witness for C10 at the freshly constructed client. -/
theorem sendCommand_not_authenticated_witness :
    initialHub.sendCommand "get_states" =
      { result := SendCommandResult.rejected "Not authenticated",
        state := initialHub, frames := [], timerMs := none } :=
  sendCommand_not_authenticated initialHub "get_states" rfl

/-- Claim C3: every hub RPC issued while authenticated arms a
30000 ms deadline; when the timer fires with the waiter still in the
table, the waiter is removed and fails with "Command timeout"; a
result frame whose id has no waiter is silently dropped, leaving the
state unchanged and settling nothing. -/
theorem hub_rpc_timeout_spec (s : HubState) (reqType : String) (id : Nat)
    (success : Bool) (errMsg : Option String) (hauth : s.authenticated = true) :
    ((s.sendCommand reqType).timerMs = some 30000) ∧
    (s.pending.contains id = true →
      (s.timeoutFire id).1.pending = s.pending.erase id ∧
      (s.timeoutFire id).2 = some (Settlement.failed id "Command timeout")) ∧
    (s.pending.contains id = false →
      s.handleResult id success errMsg = (s, none)) := by
  refine ⟨?_, ?_, ?_⟩
  · simp [HubState.sendCommand, hauth, hubCommandTimeoutMs]
  · intro hc
    have hm : id ∈ s.pending := by simpa using hc
    simp [HubState.timeoutFire, hm]
  · intro hc
    have hm : id ∉ s.pending := by simpa using hc
    simp [HubState.handleResult, hm]

/-- Witness for C3: a session holding waiter 4 times it out with
"Command timeout", and a late result for the gone id 7 is dropped. -/
theorem hub_rpc_timeout_spec_witness :
    ((hubWithWaiter4.sendCommand "call_service").timerMs = some 30000) ∧
    ((hubWithWaiter4.timeoutFire 4).1.pending = List.erase hubWithWaiter4.pending 4 ∧
      (hubWithWaiter4.timeoutFire 4).2 = some (Settlement.failed 4 "Command timeout")) ∧
    (hubWithWaiter4.handleResult 7 true none = (hubWithWaiter4, none)) :=
  ⟨(hub_rpc_timeout_spec hubWithWaiter4 "call_service" 4 true none rfl).1,
   (hub_rpc_timeout_spec hubWithWaiter4 "call_service" 4 true none rfl).2.1 (by decide),
   (hub_rpc_timeout_spec hubWithWaiter4 "call_service" 7 true none rfl).2.2 (by decide)⟩

/-- Claim C7: with reconnection enabled the n-th consecutive close is
followed by a delay of min(1000 * 2 ^ n, 30000) ms while n < 10, no
connect is scheduled from the 10th attempt on, and the concrete delay
sequence from a fresh client is 1000, 2000, 4000, 8000, 16000, then
30000 repeated, 10 delays in all. -/
theorem hub_reconnect_backoff :
    (∀ s : HubState, s.shouldReconnect = true → s.reconnectAttempts < 10 →
      (s.handleClose).2.1 = some (min (1000 * 2 ^ s.reconnectAttempts) 30000)) ∧
    (∀ s : HubState, 10 ≤ s.reconnectAttempts → (s.handleClose).2.1 = none) ∧
    closeDelays initialHub 12 =
      [1000, 2000, 4000, 8000, 16000, 30000, 30000, 30000, 30000, 30000] := by
  refine ⟨?_, ?_, by decide⟩
  · intro s hs hlt
    have hng : ¬ (s.reconnectAttempts ≥ maxReconnectAttempts) := by
      simp only [maxReconnectAttempts]
      omega
    simp [HubState.handleClose, HubState.scheduleReconnect, hs, hng, reconnectDelay]
  · intro s hge
    have hg : s.reconnectAttempts ≥ maxReconnectAttempts := by
      simp only [maxReconnectAttempts]
      omega
    by_cases hs : s.shouldReconnect <;>
      simp [HubState.handleClose, HubState.scheduleReconnect, hs, hg]

/-- Witness for C7: the first close of a fresh client schedules a
1000 ms reconnect; a client at 10 attempts schedules nothing. -/
theorem hub_reconnect_backoff_witness :
    (initialHub.handleClose).2.1 = some 1000 ∧
    (({ initialHub with reconnectAttempts := 10 } : HubState).handleClose).2.1 = none := by
  constructor
  · have h := hub_reconnect_backoff.1 initialHub rfl (by decide)
    exact h.trans (by decide)
  · exact hub_reconnect_backoff.2.1 { initialHub with reconnectAttempts := 10 } (by decide)

/-- Counterexample to C2: a session holding waiter 5 is disconnected;
no waiter is settled with any error (the settlement list is empty),
and afterwards neither the timeout nor a result frame can ever settle
waiter 5, because the table was cleared. A plain socket close settles
nothing either and leaves the waiter in the table. -/
theorem disconnect_waiters_cex :
    hubWithWaiter5.pending = [5] ∧
    (hubWithWaiter5.disconnect).2 = [] ∧
    ((hubWithWaiter5.disconnect).1.timeoutFire 5).2 = none ∧
    ((hubWithWaiter5.disconnect).1.handleResult 5 true none).2 = none ∧
    (hubWithWaiter5.handleClose).2.2 = [] ∧
    (hubWithWaiter5.handleClose).1.pending = [5] := by
  refine ⟨rfl, rfl, by decide, by decide, ?_, ?_⟩ <;> decide

/-- Claim C2 as amended: neither disconnect() nor a socket close
settles any outstanding waiter: disconnect() empties the waiter table
without rejecting (afterwards no timeout or result can settle the
lost ids), and a close leaves the table untouched, each waiter left
to fail only via its own 30 s timeout. -/
theorem disconnect_clears_waiters_without_settling (s : HubState) (id : Nat)
    (success : Bool) (errMsg : Option String) :
    (s.disconnect).2 = [] ∧
    (s.disconnect).1.pending = [] ∧
    ((s.disconnect).1.timeoutFire id).2 = none ∧
    ((s.disconnect).1.handleResult id success errMsg).2 = none ∧
    (s.handleClose).2.2 = [] ∧
    (s.handleClose).1.pending = s.pending := by
  refine ⟨rfl, rfl, ?_, ?_, ?_, ?_⟩
  · simp [HubState.disconnect, HubState.timeoutFire]
  · simp [HubState.disconnect, HubState.handleResult]
  · by_cases hs : s.shouldReconnect <;>
      simp [HubState.handleClose, hs]
  · by_cases hs : s.shouldReconnect <;>
      simp [HubState.handleClose, hs, scheduleReconnect_pending]

/-- Counterexample to C5: after processing auth_invalid the
auth_failed signal is emitted, but should-reconnect is still set, so
the following socket close schedules a reconnect (1000 ms) with the
same token — the session does not terminate. -/
theorem auth_invalid_reconnects_cex :
    ((initialHub.handleAuthInvalid "Invalid access token").2 =
      [HubSignal.authFailed "Invalid access token",
       HubSignal.connectRejected "Invalid access token"]) ∧
    ((initialHub.handleAuthInvalid "Invalid access token").1.shouldReconnect = true) ∧
    (((initialHub.handleAuthInvalid "Invalid access token").1.handleClose).2.1 = some 1000) := by
  refine ⟨rfl, rfl, by decide⟩

/-- Claim C5 as amended: on auth_invalid the hub client emits
auth_failed and rejects the connect promise but leaves the state
unchanged; should-reconnect stays set, so a subsequent socket close
schedules a reconnect with the same token after the backoff delay
(while under the attempt cap). -/
theorem auth_invalid_emits_and_leaves_reconnect (s : HubState) (msg : String)
    (hs : s.shouldReconnect = true) (hlt : s.reconnectAttempts < 10) :
    s.handleAuthInvalid msg =
      (s, [HubSignal.authFailed msg, HubSignal.connectRejected msg]) ∧
    ((s.handleAuthInvalid msg).1.handleClose).2.1 =
      some (min (1000 * 2 ^ s.reconnectAttempts) 30000) := by
  constructor
  · rfl
  · have hng : ¬ (s.reconnectAttempts ≥ maxReconnectAttempts) := by
      simp only [maxReconnectAttempts]
      omega
    simp [HubState.handleAuthInvalid, HubState.handleClose,
          HubState.scheduleReconnect, hs, hng, reconnectDelay]

/-- Witness for the amended C5 at a fresh client. -/
theorem auth_invalid_emits_and_leaves_reconnect_witness :
    initialHub.handleAuthInvalid "bad token" =
      (initialHub, [HubSignal.authFailed "bad token",
                    HubSignal.connectRejected "bad token"]) ∧
    ((initialHub.handleAuthInvalid "bad token").1.handleClose).2.1 =
      some (min (1000 * 2 ^ initialHub.reconnectAttempts) 30000) :=
  auth_invalid_emits_and_leaves_reconnect initialHub "bad token" rfl (by decide)

/-- Claim C4: when cloud authentication fails and the error text
contains "revoked" or "invalid" (case-insensitively), the credential
store is cleared (file removed, in-memory copy nulled, isPaired
false), should-reconnect is set to false, and a subsequent socket
close schedules no reconnect; auth_failed is still emitted. -/
theorem auth_failure_revoked_clears_credentials (s : CloudState)
    (tid : Option String) (error : Option String)
    (h : credErrClears (effectiveErr error) = true) :
    ((s.handleAuthResult false tid error).1.store.fileContents = none) ∧
    ((s.handleAuthResult false tid error).1.store.credentials = none) ∧
    ((s.handleAuthResult false tid error).1.store.isPaired = false) ∧
    ((s.handleAuthResult false tid error).1.shouldReconnect = false) ∧
    (((s.handleAuthResult false tid error).1.handleClose).2 = none) ∧
    ((s.handleAuthResult false tid error).2 =
      [CloudSignal.authFailedSig (effectiveErr error),
       CloudSignal.connectRejected (effectiveErr error)]) := by
  simp [CloudState.handleAuthResult, h, CredStore.clear, CredStore.isPaired,
        CloudState.handleClose]

/-- Witness for C4 at the revoked-credential scenario. -/
theorem auth_failure_revoked_clears_credentials_witness :
    ((pairedCloud.handleAuthResult false none (some "Credential revoked")).1.store.fileContents = none) ∧
    ((pairedCloud.handleAuthResult false none (some "Credential revoked")).1.store.credentials = none) ∧
    ((pairedCloud.handleAuthResult false none (some "Credential revoked")).1.shouldReconnect = false) ∧
    (((pairedCloud.handleAuthResult false none (some "Credential revoked")).1.handleClose).2 = none) := by
  have h := auth_failure_revoked_clears_credentials pairedCloud none
    (some "Credential revoked") (by decide)
  exact ⟨h.1, h.2.1, h.2.2.2.1, h.2.2.2.2.1⟩

/-- Helper: no frame is both a command_ack and a command_result for
the same cmdId. -/
theorem frame_not_ack_and_result (c : String) (x : CloudFrame) :
    ¬ (isAckFor c x = true ∧ isResultFor c x = true) := by
  cases x <;> simp [isAckFor, isResultFor]

/-- Helper: ordering property on a two-frame sequence whose first
element is not a result and whose second is not an ack. -/
theorem two_frame_order (c : String) (x y : CloudFrame)
    (hy : isAckFor c y = false) (hx : isResultFor c x = false) :
    ∀ i j, i < ([x, y] : List CloudFrame).length →
      j < ([x, y] : List CloudFrame).length →
      isAckFor c (([x, y] : List CloudFrame).getD i dummyFrame) = true →
      isResultFor c (([x, y] : List CloudFrame).getD j dummyFrame) = true → i < j := by
  intro i j hi hj hia hjr
  rcases i with _ | i
  · rcases j with _ | j
    · have h0 : isResultFor c x = true := hjr
      rw [hx] at h0
      exact absurd h0 (by decide)
    · exact Nat.succ_pos j
  · have hi0 : i = 0 := by
      have h2 : i + 1 < 2 := by simpa using hi
      omega
    subst hi0
    have h1 : isAckFor c y = true := hia
    rw [hy] at h1
    exact absurd h1 (by decide)

/-- Helper: ordering property on a one-frame sequence. -/
theorem one_frame_order (c : String) (x : CloudFrame) :
    ∀ i j, i < ([x] : List CloudFrame).length →
      j < ([x] : List CloudFrame).length →
      isAckFor c (([x] : List CloudFrame).getD i dummyFrame) = true →
      isResultFor c (([x] : List CloudFrame).getD j dummyFrame) = true → i < j := by
  intro i j hi hj hia hjr
  have hi1 : i < 1 := by simpa using hi
  have hj1 : j < 1 := by simpa using hj
  have hi0 : i = 0 := by omega
  have hj0 : j = 0 := by omega
  subst hi0
  subst hj0
  have h1 : isAckFor c x = true := hia
  have h2 : isResultFor c x = true := hjr
  exact absurd ⟨h1, h2⟩ (frame_not_ack_and_result c x)

/-- Helper: ordering property on the empty frame sequence. -/
theorem nil_frame_order (c : String) :
    ∀ i j, i < ([] : List CloudFrame).length →
      j < ([] : List CloudFrame).length →
      isAckFor c (([] : List CloudFrame).getD i dummyFrame) = true →
      isResultFor c (([] : List CloudFrame).getD j dummyFrame) = true → i < j := by
  intro i j hi _ _ _
  simp at hi

/-- Claim C1: processing one inbound command frame with
requiresAck=true emits at most one command_ack for its cmdId, and in
the emitted frame sequence every command_ack for that cmdId strictly
precedes every command_result for it. -/
theorem command_ack_before_result (cmd : CommandMessage)
    (hubOutcome : Except String Unit) (a r : Bool) (t1 t2 : String)
    (hAck : cmd.requiresAck = true) :
    ((processCloudCommand cmd hubOutcome a r t1 t2).2.countP (isAckFor cmd.cmdId) ≤ 1) ∧
    (∀ i j, i < (processCloudCommand cmd hubOutcome a r t1 t2).2.length →
      j < (processCloudCommand cmd hubOutcome a r t1 t2).2.length →
      isAckFor cmd.cmdId ((processCloudCommand cmd hubOutcome a r t1 t2).2.getD i dummyFrame) = true →
      isResultFor cmd.cmdId ((processCloudCommand cmd hubOutcome a r t1 t2).2.getD j dummyFrame) = true →
      i < j) := by
  have hackresf : ∀ t, isResultFor cmd.cmdId (CloudFrame.commandAck cmd.cmdId "acknowledged" t) = false := by
    intro t
    simp [isResultFor]
  have hresackf : isAckFor cmd.cmdId (executeCloudCommand cmd hubOutcome t2).2 = false := by
    cases hubOutcome <;> simp [executeCloudCommand, isAckFor]
  constructor
  · cases a <;> cases r <;> cases hubOutcome <;>
      simp [processCloudCommand, cloudHandleCommand, executeCloudCommand, hAck,
            List.countP_cons, List.countP_nil, isAckFor]
  · cases a <;> cases r <;>
      simp only [processCloudCommand, cloudHandleCommand, hAck,
                 Bool.true_and, Bool.and_false, Bool.and_true, Bool.and_self,
                 ite_true, ite_false, if_pos, if_neg,
                 List.nil_append, List.append_nil, List.singleton_append]
    · exact nil_frame_order cmd.cmdId
    · exact one_frame_order cmd.cmdId (executeCloudCommand cmd hubOutcome t2).2
    · exact one_frame_order cmd.cmdId (CloudFrame.commandAck cmd.cmdId "acknowledged" t1)
    · exact two_frame_order cmd.cmdId (CloudFrame.commandAck cmd.cmdId "acknowledged" t1)
        (executeCloudCommand cmd hubOutcome t2).2 hresackf (hackresf t1)

/-- Witness for C1 at the command-dispatch scenario. -/
theorem command_ack_before_result_witness :
    (processCloudCommand demoCommand (Except.ok ()) true true "t1" "t2").2.countP
      (isAckFor demoCommand.cmdId) ≤ 1 :=
  (command_ack_before_result demoCommand (Except.ok ()) true true "t1" "t2" rfl).1

/-- Counterexample to C6: a command whose commandType is not any
recognized type is nevertheless executed: the executor issues a
call_service hub RPC, and the command_result it emits on a hub error
carries code EXECUTION_FAILED, not UNKNOWN_COMMAND. -/
theorem unknown_command_cex :
    unknownCommand.commandType ∉ recognizedCommandTypes ∧
    (executeCloudCommand unknownCommand (Except.error "service not found") "t").1 =
      [HubCall.callService (some "light") (some "turn_on") []] ∧
    (executeCloudCommand unknownCommand (Except.error "service not found") "t").2 =
      CloudFrame.commandResult "cmd-unknown-1" "failed"
        (some ("EXECUTION_FAILED", "service not found")) "t" :=
  ⟨by decide, rfl, rfl⟩

/-- Claim C6 as amended: the executor never inspects commandType:
every command is executed as a call_service hub RPC built from the
payload's domain and service; a hub failure yields a command_result
with status failed and code EXECUTION_FAILED, a hub success yields
status completed; no UNKNOWN_COMMAND result exists. -/
theorem executor_ignores_command_type (cmd : CommandMessage) (now : String) :
    (∀ msg, executeCloudCommand cmd (Except.error msg) now =
      ([HubCall.callService cmd.payload.domain cmd.payload.service
          (match cmd.payload.serviceData with | some d => d | none => [])],
       CloudFrame.commandResult cmd.cmdId "failed"
         (some ("EXECUTION_FAILED", msg)) now)) ∧
    (executeCloudCommand cmd (Except.ok ()) now =
      ([HubCall.callService cmd.payload.domain cmd.payload.service
          (match cmd.payload.serviceData with | some d => d | none => [])],
       CloudFrame.commandResult cmd.cmdId "completed" none now)) :=
  ⟨fun _ => rfl, rfl⟩

/-- Helper: delivering events appends them to the queue in order and
leaves the uuid supply untouched. -/
theorem recvAll_spec (es : List HAEventModel) (s : BatcherState) :
    (recvAll s es).queue = s.queue ++ es ∧
    (recvAll s es).uuidCounter = s.uuidCounter ∧
    (recvAll s es).sentBatchIds = s.sentBatchIds := by
  induction es generalizing s with
  | nil => simp [recvAll]
  | cons e rest ih =>
    have h := ih (handleStateChange s e)
    simp only [recvAll] at h
    simp only [recvAll, List.foldl_cons]
    refine ⟨?_, ?_, ?_⟩
    · rw [h.1]
      simp [handleStateChange]
    · rw [h.2.1]
      simp [handleStateChange]
    · rw [h.2.2]
      simp [handleStateChange]

/-- Helper: the outbound mapping succeeds on a list of events whose
new states are all present, and preserves entity order. -/
theorem mapEvents_total (now : String) (es : List HAEventModel)
    (h : ∀ e ∈ es, e.new_state.isSome = true) :
    ∃ evs, mapEvents now es = some evs ∧
      evs.map OutEvent.entityId = es.map HAEventModel.entity_id := by
  induction es with
  | nil => exact ⟨[], rfl, rfl⟩
  | cons e rest ih =>
    obtain ⟨evs, hm, hmap⟩ := ih (fun x hx => h x (List.mem_cons_of_mem _ hx))
    obtain ⟨ns, hns⟩ := Option.isSome_iff_exists.mp (h e (List.mem_cons_self _ _))
    refine ⟨{ entityId := e.entity_id,
              oldState := e.old_state.map (fun os =>
                { state := os.state, attributes := os.attributes,
                  lastChanged := os.last_changed, lastUpdated := os.last_updated }),
              newState := { state := ns.state, attributes := ns.attributes,
                            lastChanged := ns.last_changed,
                            lastUpdated := ns.last_updated },
              timestamp := now } :: evs, ?_, ?_⟩
    · simp [mapEvents, convertEvent, hns, hm]
    · simp [hmap]

/-- Claim C8: events received in order between two flushes are flushed
as at most one state_batch frame whose event list preserves exactly
that order, carrying a batch id fresh with respect to every id handed
out before; a flush with an empty buffer emits no frame. -/
theorem state_batch_order_preserved (s0 : BatcherState) (es : List HAEventModel)
    (connected : Bool) (now : String)
    (hq : s0.queue = [])
    (hfresh : ∀ b ∈ s0.sentBatchIds, b < s0.uuidCounter)
    (hns : ∀ e ∈ es, e.new_state.isSome = true) :
    ∃ s1 frames,
      flushStateChanges (recvAll s0 es) connected now = some (s1, frames) ∧
      frames.length ≤ 1 ∧
      (es = [] → frames = []) ∧
      (∀ bid t evs ov, CloudFrame.stateBatch bid t evs ov ∈ frames →
        mapEvents now es = some evs ∧
        evs.map OutEvent.entityId = es.map HAEventModel.entity_id ∧
        bid ∉ s0.sentBatchIds) := by
  obtain ⟨hque, hcnt, hsent⟩ := recvAll_spec es s0
  rw [hq, List.nil_append] at hque
  cases es with
  | nil =>
    have hflush : flushStateChanges (recvAll s0 []) connected now =
        some ({ recvAll s0 [] with timerArmed := false }, []) := by
      simp [flushStateChanges, hque]
    exact ⟨_, [], hflush, by simp, fun _ => rfl, by simp⟩
  | cons e rest =>
    cases connected with
    | false =>
      have hflush : flushStateChanges (recvAll s0 (e :: rest)) false now =
          some ({ recvAll s0 (e :: rest) with queue := [], timerArmed := false }, []) := by
        simp [flushStateChanges, hque]
      exact ⟨_, [], hflush, by simp, by simp, by simp⟩
    | true =>
      obtain ⟨evs, hm, hmap⟩ := mapEvents_total now (e :: rest) hns
      have hne : evs ≠ [] := by
        intro hcontra
        rw [hcontra] at hmap
        simp at hmap
      have hlen : (evs.length == 0) = false := by
        cases evs with
        | nil => exact absurd rfl hne
        | cons x xs => rfl
      have hflush : flushStateChanges (recvAll s0 (e :: rest)) true now =
          some ({ queue := [], timerArmed := false, uuidCounter := s0.uuidCounter + 1,
                  sentBatchIds := s0.sentBatchIds ++ [s0.uuidCounter] },
                [CloudFrame.stateBatch s0.uuidCounter now evs false]) := by
        simp [flushStateChanges, hque, hm, sendStateBatch, hlen, hcnt, hsent]
      refine ⟨_, [CloudFrame.stateBatch s0.uuidCounter now evs false], hflush,
        by simp, by simp, ?_⟩
      intro bid t evs2 ov hmem
      simp only [List.mem_singleton, CloudFrame.stateBatch.injEq] at hmem
      obtain ⟨hbid, -, hevs, -⟩ := hmem
      subst hbid
      subst hevs
      refine ⟨hm, hmap, ?_⟩
      intro hmem2
      exact absurd (hfresh _ hmem2) (lt_irrefl _)

/-- Witness for C8 at the state-batching scenario A, B, A, C. -/
theorem state_batch_order_preserved_witness :
    ∃ s1 frames,
      flushStateChanges (recvAll {} [evA, evB, evA, evC]) true "t" = some (s1, frames) ∧
      frames.length ≤ 1 ∧
      ([evA, evB, evA, evC] = ([] : List HAEventModel) → frames = []) ∧
      (∀ bid t evs ov, CloudFrame.stateBatch bid t evs ov ∈ frames →
        mapEvents "t" [evA, evB, evA, evC] = some evs ∧
        evs.map OutEvent.entityId =
          [evA, evB, evA, evC].map HAEventModel.entity_id ∧
        bid ∉ ({} : BatcherState).sentBatchIds) :=
  state_batch_order_preserved {} [evA, evB, evA, evC] true "t" rfl
    (by simp) (by decide)

/-- Claim C9: a pairing-status poll answering paired with
bridgeCredential, tenantId and bridgeId saves exactly those three
fields to the credential store (file and memory) and exits the
polling loop into a cloud connect. -/
theorem pairing_paired_saves_and_connects (store : CredStore) (attempts : Nat)
    (cred tid bid : String) (hnp : store.isPaired = false) (hc : cred ≠ "") :
    pollStep store attempts
        (PollResponse.httpOk "paired" (some cred) (some tid) (some bid)) =
      ({ fileContents := some { bridgeId := bid, bridgeCredential := cred, tenantId := tid },
         credentials := some { bridgeId := bid, bridgeCredential := cred, tenantId := tid } },
       PollAction.connectAndExit) := by
  have hb : (cred == "") = false := beq_eq_false_iff_ne.mpr hc
  simp [pollStep, hnp, credTruthy, CredStore.save, hb]

/-- Witness for C9 at the first-run pairing scenario. -/
theorem pairing_paired_saves_and_connects_witness :
    pollStep {} 3
        (PollResponse.httpOk "paired" (some "bc_deadbeef") (some "42")
          (some "helm-bridge-abcd1234")) =
      ({ fileContents := some { bridgeId := "helm-bridge-abcd1234",
                                bridgeCredential := "bc_deadbeef", tenantId := "42" },
         credentials := some { bridgeId := "helm-bridge-abcd1234",
                               bridgeCredential := "bc_deadbeef", tenantId := "42" } },
       PollAction.connectAndExit) :=
  pairing_paired_saves_and_connects {} 3 "bc_deadbeef" "42" "helm-bridge-abcd1234"
    rfl (by decide)
